import Mathlib

/-!
Verification model of the DCHdigi drift-chamber digitizer
(k4RecTracker, src/DCHdigi/include/DCHdigi.h).

The repository under analysis ships only the header DCHdigi.h.  Functions
whose bodies appear literally in the header (CalculateLayerFromCellID,
CalculateNphiFromCellID, the two vector conversion helpers, IsFileGood)
are embedded directly from that source.  Functions declared in the header
whose bodies live in the missing DCHdigi.cpp (the call operator,
PrepareRandomEngine, CalculateClusters, the wire geometry helpers, the
initialization routine) are modelled from the specification; each such
definition carries a doc comment saying so.  Machine doubles are embedded
as rationals, machine integers as naturals with explicit reduction modulo
two to the 64 where overflow matters.
-/

namespace DCHdigi

/-- Constant MM_TO_CM from DCHdigi.h: converts mm (EDM4hep) to cm (DD4hep). -/
def MM_TO_CM : ℚ := 1 / 10

/-- EDM4hep 3-vector of doubles, embedded with rational components. -/
structure Vector3d where
  x : ℚ
  y : ℚ
  z : ℚ

/-- ROOT TVector3, embedded with rational components. -/
structure TVector3 where
  x : ℚ
  y : ℚ
  z : ℚ

/-- Embeds Convert_EDM4hepVector_to_TVector3 from DCHdigi.h: each component of the input vector is multiplied by the scale argument. -/
def Convert_EDM4hepVector_to_TVector3 (v : Vector3d) (scale : ℚ) : TVector3 :=
  ⟨v.x * scale, v.y * scale, v.z * scale⟩

/-- Embeds Convert_TVector3_to_EDM4hepVector from DCHdigi.h: each component of the input vector is multiplied by the scale argument. -/
def Convert_TVector3_to_EDM4hepVector (v : TVector3) (scale : ℚ) : Vector3d :=
  ⟨v.x * scale, v.y * scale, v.z * scale⟩

/-- External BitFieldCoder decoder (member m_decoder): the named fields of a cellID, modelled as functions of the identifier. -/
structure BitFieldCoder where
  layer : Nat → Nat
  superlayer : Nat → Nat
  nphi : Nat → Nat

/-- Embeds CalculateLayerFromCellID from DCHdigi.h: the layer field of the decoder plus nlayersPerSuperlayer times the superlayer field plus one.  The decoder member m_decoder and the datum nlayersPerSuperlayer of dch_data are passed explicitly. -/
def CalculateLayerFromCellID (m_decoder : BitFieldCoder) (nlayersPerSuperlayer : Nat)
    (id : Nat) : Nat :=
  m_decoder.layer id + nlayersPerSuperlayer * m_decoder.superlayer id + 1

/-- Embeds CalculateNphiFromCellID from DCHdigi.h: the nphi field of the decoder. -/
def CalculateNphiFromCellID (m_decoder : BitFieldCoder) (id : Nat) : Nat :=
  m_decoder.nphi id

/-- The layer numbering formula exactly as the specification words it: layer equals local layer plus layers per superlayer times superlayer plus one, a 1-based numbering. -/
def spec_layerNumber (local_layer layers_per_superlayer superlayer : Nat) : Nat :=
  local_layer + layers_per_superlayer * superlayer + 1

/-- Modelled from the spec: state of the thread local std::mt19937_64 member m_engine.  The standard library generator itself is an external collaborator; its state is represented as a 64 bit natural number. -/
abbrev EngineState := Nat

/-- Modelled from the spec: one 64 bit draw from the engine, a concrete stand-in for the external mt19937_64 step function; the updated state is also the drawn value. -/
def engineNext (st : EngineState) : Nat × EngineState :=
  let st1 := (6364136223846793005 * st + 1442695040888963407) % (2 ^ 64)
  (st1, st1)

/-- EDM4hep EventHeader: the run and event identifiers. -/
structure EventHeader where
  runNumber : Nat
  eventNumber : Nat

/-- Modelled from the spec: the external UniqueIDGenSvc combines the event number, the run number and the algorithm name into a 64 bit seed. -/
def getUniqueID (eventNumber runNumber : Nat) (name : String) : Nat :=
  (runNumber * 2 ^ 32 + eventNumber * 2 ^ 8 + name.length) % (2 ^ 64)

/-- Modelled from the spec: PrepareRandomEngine, declared in DCHdigi.h with its body in the missing DCHdigi.cpp, derives the seed of the event from the run and event identifiers of the first event header and reseeds the thread local engine, discarding any previous engine state. -/
def PrepareRandomEngine (headers : List EventHeader) : EngineState :=
  getUniqueID (headers.headD ⟨0, 0⟩).eventNumber (headers.headD ⟨0, 0⟩).runNumber "DCHdigi"

/-- Modelled from the spec: a standard normal draw produced from one engine draw.  The numeric shape of the external normal distribution does not matter to the claims; what matters is that one draw of the stream is consumed. -/
def gaussStd (st : EngineState) : ℚ × EngineState :=
  ((((engineNext st).1 % 1000 : Nat) : ℚ) / 1000 - 1 / 2, (engineNext st).2)

/-- Modelled from the spec: the smearing step of the call operator adds independent zero mean gaussian noise to the two wire frame coordinates, sigma_z along the wire and sigma_xy perpendicular to it, both sigmas already converted to cm. -/
def smearCoordinates (sigma_z sigma_xy : ℚ) (alongWire perpDistance : ℚ) (st : EngineState) :
    (ℚ × ℚ) × EngineState :=
  ((alongWire + sigma_z * (gaussStd st).1,
    perpDistance + sigma_xy * (gaussStd (gaussStd st).2).1),
    (gaussStd (gaussStd st).2).2)

/-- Modelled from the spec: the calibration data loaded from fileDataAlg into the wrapper class AlgData: path length buckets of equal width starting at minPath, and per bucket the empirical distributions of cluster count and of cluster size, each given as a list of samples. -/
structure AlgData where
  minPath : ℚ
  bucketWidth : ℚ
  numBuckets : Nat
  countDist : Nat → List Nat
  sizeDist : Nat → List Nat

/-- Modelled from the spec: selection of the path length bucket with clamping.  A path length below the first bucket clamps to bucket 0 (the floor is negative and truncates to zero), one above the last bucket clamps to the last bucket (the min). -/
def selectBucket (flData : AlgData) (pathLength : ℚ) : Nat :=
  min (Int.toNat (Int.floor ((pathLength - flData.minPath) / flData.bucketWidth)))
    (flData.numBuckets - 1)

/-- Modelled from the spec: one empirical sample from a list of calibration samples, using one engine draw to pick the index. -/
def sampleFrom (xs : List Nat) (st : EngineState) : Nat × EngineState :=
  (xs.getD ((engineNext st).1 % xs.length) 0, (engineNext st).2)

/-- Modelled from the spec: sampling of the cluster observables from the distributions of one bucket: first one count draw, then one size draw. -/
def sampleClustersFromBucket (flData : AlgData) (b : Nat) (st : EngineState) :
    (Nat × Nat) × EngineState :=
  (((sampleFrom (flData.countDist b) st).1,
    (sampleFrom (flData.sizeDist b) (sampleFrom (flData.countDist b) st).2).1),
    (sampleFrom (flData.sizeDist b) (sampleFrom (flData.countDist b) st).2).2)

/-- SimTrackerHit input record: the fields this core reads. -/
structure SimTrackerHit where
  eDep : ℚ
  pathLength : ℚ
  position : Vector3d
  cellID : Nat

/-- Modelled from the spec: CalculateClusters, declared in DCHdigi.h with return type std::pair of two uint32 and its body in the missing DCHdigi.cpp.  A zero energy deposit short circuits to zero clusters with no draw; otherwise the path length selects a clamped bucket and the pair of cluster count and cluster size is sampled from that bucket. -/
def CalculateClusters (flData : AlgData) (hit : SimTrackerHit) (st : EngineState) :
    (Nat × Nat) × EngineState :=
  if hit.eDep = 0 then ((0, 0), st)
  else sampleClustersFromBucket flData (selectBucket flData hit.pathLength) st

/-- The sequence of cluster sizes contained in one CalculateClusters result: the declared return type, a std::pair of two uint32, carries exactly one size value, its second component. -/
def clusterSizeSeq (r : Nat × Nat) : List Nat := [r.2]

/-- DriftChamberDigiV2 output record: the fields this model fills. -/
structure DigitizedHit where
  cellID : Nat
  zPositionAlongWire : ℚ
  distanceToWire : ℚ
  clusterCount : Nat
  clusterSize : Nat

/-- Association link between the digitized hit at index digiIndex and the simulated hit at index simIndex. -/
structure AssociationLink where
  digiIndex : Nat
  simIndex : Nat

/-- Static collaborators and configuration of the algorithm: the decoder, the detector datum nlayersPerSuperlayer, the wire geometry closed forms (external detector description, deterministic in layer and nphi), the external square root routine, the two resolution properties in mm, and the calibration data. -/
structure DigiContext where
  m_decoder : BitFieldCoder
  nlayersPerSuperlayer : Nat
  wire_ez : Nat → Nat → TVector3
  wire_z0 : Nat → Nat → TVector3
  sqrtQ : ℚ → ℚ
  m_z_resolution : ℚ
  m_xy_resolution : ℚ
  flData : AlgData

/-- Dot product of two embedded TVector3 values. -/
def dotQ (a b : TVector3) : ℚ := a.x * b.x + a.y * b.y + a.z * b.z

/-- Componentwise difference of two embedded TVector3 values. -/
def subQ (a b : TVector3) : TVector3 := ⟨a.x - b.x, a.y - b.y, a.z - b.z⟩

/-- Scalar multiple of an embedded TVector3 value. -/
def smulQ (c : ℚ) (a : TVector3) : TVector3 := ⟨c * a.x, c * a.y, c * a.z⟩

/-- Modelled from the spec: digitization of one simulated hit inside the call operator: decode the cell, convert the position to cm, project onto the wire frame (component along the wire direction and residual distance), smear both coordinates, sample the cluster pair.  The output keeps the cellID of the input hit. -/
def processHit (ctx : DigiContext) (hit : SimTrackerHit) (st : EngineState) :
    DigitizedHit × EngineState :=
  let ilayer := CalculateLayerFromCellID ctx.m_decoder ctx.nlayersPerSuperlayer hit.cellID
  let nphi := CalculateNphiFromCellID ctx.m_decoder hit.cellID
  let hit_position := Convert_EDM4hepVector_to_TVector3 hit.position MM_TO_CM
  let ez := ctx.wire_ez ilayer nphi
  let z0 := ctx.wire_z0 ilayer nphi
  let d := subQ hit_position z0
  let alongWire := dotQ d ez
  let perpVec := subQ d (smulQ alongWire ez)
  let perpDistance := ctx.sqrtQ (dotQ perpVec perpVec)
  let smeared := smearCoordinates (ctx.m_z_resolution * MM_TO_CM) (ctx.m_xy_resolution * MM_TO_CM)
    alongWire perpDistance st
  let clusters := CalculateClusters ctx.flData hit smeared.2
  (⟨hit.cellID, smeared.1.1, smeared.1.2, clusters.1.1, clusters.1.2⟩, clusters.2)

/-- Modelled from the spec: the per event loop of the call operator: hits are processed in input order with the engine stream advancing across hits; each hit yields one digitized hit and one association link carrying the index of that hit. -/
def digitizeLoop (ctx : DigiContext) (hits : List SimTrackerHit) (idx : Nat) (st : EngineState) :
    List DigitizedHit × List AssociationLink :=
  match hits with
  | [] => ([], [])
  | h :: rest =>
    ((processHit ctx h st).1 :: (digitizeLoop ctx rest (idx + 1) (processHit ctx h st).2).1,
      ⟨idx, idx⟩ :: (digitizeLoop ctx rest (idx + 1) (processHit ctx h st).2).2)

/-- Modelled from the spec: the call operator of DCHdigi: reseed the thread local engine from the event headers through PrepareRandomEngine, discarding the incoming engine state st0, then digitize the hits in order. -/
def dchOperator (ctx : DigiContext) (simhits : List SimTrackerHit) (headers : List EventHeader)
    (st0 : EngineState) : List DigitizedHit × List AssociationLink :=
  digitizeLoop ctx simhits 0 (PrepareRandomEngine headers)

/-- Embeds IsFileGood from DCHdigi.h: the file is checked through an ifstream; the filesystem is an external collaborator, modelled as a predicate on file names. -/
def IsFileGood (fs : String → Bool) (ifilename : String) : Bool := fs ifilename

/-- Modelled from the spec: the initialization routine of DCHdigi (body in the missing DCHdigi.cpp) validates the configured calibration file fileDataAlg and fails fatally, through ThrowException, when the file is missing or unreadable. -/
def initDCHdigi (fs : String → Bool) (fileDataAlg : String) : Except String Unit :=
  if IsFileGood fs fileDataAlg then Except.ok ()
  else Except.error "fileDataAlg file does not exist"

/-- Modelled from the spec: a whole run of the algorithm: initialization first; only when it succeeds are the events processed with the call operator. -/
def runDCHdigi (fs : String → Bool) (fileDataAlg : String) (ctx : DigiContext)
    (events : List (List SimTrackerHit × List EventHeader)) :
    Except String (List (List DigitizedHit × List AssociationLink)) :=
  match initDCHdigi fs fileDataAlg with
  | Except.error e => Except.error e
  | Except.ok _ => Except.ok (events.map fun ev => dchOperator ctx ev.1 ev.2 0)

/-- Storage class of one mutable member of DCHdigi, transcribed from the declarations in DCHdigi.h: whether the member is thread local, and whether it is mutable state written during event processing. -/
structure MemberStorage where
  threadLocal : Bool
  mutablePerInvocation : Bool

/-- Member m_engine, DCHdigi.h line 126: inline static thread local std::mt19937_64, written by every draw during event processing. -/
def m_engine_storage : MemberStorage := ⟨true, true⟩

/-- Member myRandom, DCHdigi.h line 136: inline static thread local TRandom3. -/
def myRandom_storage : MemberStorage := ⟨true, true⟩

/-- Member m_gauss_z_cm, DCHdigi.h line 132: mutable std::normal_distribution instance member, written by every smearing call during event processing, not thread local. -/
def m_gauss_z_cm_storage : MemberStorage := ⟨false, true⟩

/-- Member m_gauss_xy_cm, DCHdigi.h line 134: mutable std::normal_distribution instance member, not thread local. -/
def m_gauss_xy_cm_storage : MemberStorage := ⟨false, true⟩

/-- All mutable members of DCHdigi written during event processing, per the header declarations. -/
def mutableEventMembers : List MemberStorage :=
  [m_engine_storage, myRandom_storage, m_gauss_z_cm_storage, m_gauss_xy_cm_storage]

/-- Concrete calibration data used in witnesses and counterexamples. -/
def algDataW : AlgData :=
  { minPath := 1
    bucketWidth := 1
    numBuckets := 3
    countDist := fun _ => [2]
    sizeDist := fun _ => [4] }

/-- Concrete context used in witnesses. -/
def ctxW : DigiContext :=
  { m_decoder := { layer := fun _ => 0, superlayer := fun _ => 0, nphi := fun _ => 0 }
    nlayersPerSuperlayer := 8
    wire_ez := fun _ _ => ⟨0, 0, 1⟩
    wire_z0 := fun _ _ => ⟨0, 0, 0⟩
    sqrtQ := fun q => q
    m_z_resolution := 1
    m_xy_resolution := 1 / 10
    flData := algDataW }

/-- Concrete context with both resolution properties set to zero. -/
def ctxZeroRes : DigiContext :=
  { ctxW with m_z_resolution := 0, m_xy_resolution := 0 }

/-- Concrete event headers used in witnesses. -/
def headersW : List EventHeader := [⟨7, 42⟩]

/-- Concrete hit with nonzero energy deposit, used in the counterexample for the cluster sequence claim. -/
def hitW : SimTrackerHit := ⟨5, 2, ⟨0, 0, 0⟩, 11⟩

/-- Concrete hit whose path length lies below the calibration range of algDataW. -/
def hitBelowW : SimTrackerHit := ⟨5, 1 / 2, ⟨0, 0, 0⟩, 0⟩

/-- Claim C2: for every cell identifier the decoded layer index equals the local layer field plus layers per superlayer times the superlayer field plus one, the 1-based numbering stated by the spec. -/
theorem C2_layer_formula (m_decoder : BitFieldCoder) (nlayersPerSuperlayer : Nat) (id : Nat) :
    CalculateLayerFromCellID m_decoder nlayersPerSuperlayer id =
      spec_layerNumber (m_decoder.layer id) nlayersPerSuperlayer (m_decoder.superlayer id) := rfl

/-- Claim C10: converting a 3-vector to a TVector3 with a nonzero scale s and back with scale 1 over s returns the vector componentwise. -/
theorem C10_scale_inverse (v : Vector3d) (s : ℚ) (hs : s ≠ 0) :
    Convert_TVector3_to_EDM4hepVector (Convert_EDM4hepVector_to_TVector3 v s) (1 / s) = v := by
  cases v with
  | mk x y z =>
    simp only [Convert_EDM4hepVector_to_TVector3, Convert_TVector3_to_EDM4hepVector,
      Vector3d.mk.injEq]
    refine ⟨?_, ?_, ?_⟩ <;> field_simp

/-- Witness for claim C10 at the concrete vector (1, 2, 3) and scale 2. -/
theorem C10_scale_inverse_witness :
    Convert_TVector3_to_EDM4hepVector (Convert_EDM4hepVector_to_TVector3 ⟨1, 2, 3⟩ 2) (1 / 2)
      = (⟨1, 2, 3⟩ : Vector3d) :=
  C10_scale_inverse ⟨1, 2, 3⟩ 2 (by norm_num)

/-- Claim C5: a hit with zero energy deposit yields cluster count 0 deterministically and the engine state is unchanged by the call. -/
theorem C5_zero_energy (flData : AlgData) (hit : SimTrackerHit) (st : EngineState)
    (h : hit.eDep = 0) :
    (CalculateClusters flData hit st).1.1 = 0 ∧ (CalculateClusters flData hit st).2 = st := by
  simp [CalculateClusters, h]

/-- Witness for claim C5 at a concrete zero energy hit. -/
theorem C5_zero_energy_witness :
    (CalculateClusters algDataW ⟨0, 2, ⟨0, 0, 0⟩, 3⟩ 9).1.1 = 0 ∧
      (CalculateClusters algDataW ⟨0, 2, ⟨0, 0, 0⟩, 3⟩ 9).2 = 9 :=
  C5_zero_energy algDataW ⟨0, 2, ⟨0, 0, 0⟩, 3⟩ 9 rfl

/-- Claim C7: when both configured resolution properties are zero the smearing step returns the true wire frame coordinates exactly. -/
theorem C7_zero_sigma_noop (ctx : DigiContext) (alongWire perpDistance : ℚ) (st : EngineState)
    (hz : ctx.m_z_resolution = 0) (hxy : ctx.m_xy_resolution = 0) :
    (smearCoordinates (ctx.m_z_resolution * MM_TO_CM) (ctx.m_xy_resolution * MM_TO_CM)
        alongWire perpDistance st).1 = (alongWire, perpDistance) := by
  simp [smearCoordinates, hz, hxy]

/-- Witness for claim C7 at concrete coordinates with the zero resolution context. -/
theorem C7_zero_sigma_noop_witness :
    (smearCoordinates (ctxZeroRes.m_z_resolution * MM_TO_CM)
        (ctxZeroRes.m_xy_resolution * MM_TO_CM) 2 (5 / 100) 3).1 = (2, 5 / 100) :=
  C7_zero_sigma_noop ctxZeroRes 2 (5 / 100) 3 rfl rfl

/-- Claim C8: when the configured calibration file is missing or unreadable, initialization fails fatally with an error and a whole run produces no output at all. -/
theorem C8_missing_file_fatal (fs : String → Bool) (fileDataAlg : String) (ctx : DigiContext)
    (events : List (List SimTrackerHit × List EventHeader))
    (h : IsFileGood fs fileDataAlg = false) :
    initDCHdigi fs fileDataAlg = Except.error "fileDataAlg file does not exist" ∧
    runDCHdigi fs fileDataAlg ctx events = Except.error "fileDataAlg file does not exist" := by
  have hinit : initDCHdigi fs fileDataAlg = Except.error "fileDataAlg file does not exist" := by
    simp [initDCHdigi, h]
  exact ⟨hinit, by simp [runDCHdigi, hinit]⟩

/-- Witness for claim C8 on a filesystem without any file. -/
theorem C8_missing_file_fatal_witness :
    initDCHdigi (fun _ => false) "DataAlgFORGEANT.root"
        = Except.error "fileDataAlg file does not exist" ∧
    runDCHdigi (fun _ => false) "DataAlgFORGEANT.root" ctxW []
        = Except.error "fileDataAlg file does not exist" :=
  C8_missing_file_fatal (fun _ => false) "DataAlgFORGEANT.root" ctxW [] rfl

/-- Claim C9 fails on the code: m_gauss_z_cm is mutable state written during event processing yet it is not thread local, so not every mutable member used in event processing is thread local. -/
theorem C9_counterexample :
    m_gauss_z_cm_storage.mutablePerInvocation = true ∧
    m_gauss_z_cm_storage.threadLocal = false ∧
    (mutableEventMembers.all fun m => m.threadLocal) = false := by decide

/-- Claim C9 amended: the engine and the TRandom3 generator are thread local, while the two mutable gaussian distribution members used for smearing during event processing are shared instance state, not thread local. -/
theorem C9_amended_storage :
    m_engine_storage.threadLocal = true ∧ myRandom_storage.threadLocal = true ∧
    m_gauss_z_cm_storage.threadLocal = false ∧ m_gauss_xy_cm_storage.threadLocal = false := by
  decide

/-- Claim C1: two runs of the call operator with identical run and event identifiers and the same input hits produce identical outputs, whatever engine state each run starts from, and the per event random stream depends only on the run and event identifiers. -/
theorem C1_reproducibility (ctx : DigiContext) (hits : List SimTrackerHit)
    (headers1 headers2 : List EventHeader) (st1 st2 : EngineState)
    (hrun : (headers1.headD ⟨0, 0⟩).runNumber = (headers2.headD ⟨0, 0⟩).runNumber)
    (hevt : (headers1.headD ⟨0, 0⟩).eventNumber = (headers2.headD ⟨0, 0⟩).eventNumber) :
    PrepareRandomEngine headers1 = PrepareRandomEngine headers2 ∧
    dchOperator ctx hits headers1 st1 = dchOperator ctx hits headers2 st2 := by
  have hseed : PrepareRandomEngine headers1 = PrepareRandomEngine headers2 := by
    simp only [PrepareRandomEngine, hrun, hevt]
  exact ⟨hseed, by simp only [dchOperator, hseed]⟩

/-- Witness for claim C1: the same event digitized from two different incoming engine states, with header lists sharing run and event identifiers. -/
theorem C1_reproducibility_witness :
    PrepareRandomEngine headersW = PrepareRandomEngine headersW ∧
    dchOperator ctxW [hitW] headersW 0 = dchOperator ctxW [hitW] headersW 5 :=
  C1_reproducibility ctxW [hitW] headersW headersW 0 5 rfl rfl

/-- Claim C3 fails on the code: CalculateClusters is declared returning a std::pair of two uint32, which carries a single cluster size; at a concrete input the sampled cluster count is 2 while the result holds exactly one size value, so the result does not contain one size per cluster. -/
theorem C3_counterexample :
    (CalculateClusters algDataW hitW 0).1.1 = 2 ∧
    (clusterSizeSeq (CalculateClusters algDataW hitW 0).1).length ≠
      (CalculateClusters algDataW hitW 0).1.1 := by decide

/-- Auxiliary: a sample drawn by sampleFrom from a nonempty list of calibration samples is an element of that list. -/
theorem sampleFrom_mem (xs : List Nat) (st : EngineState) (hxs : xs ≠ []) :
    (sampleFrom xs st).1 ∈ xs := by
  have hlen : 0 < xs.length := List.length_pos.mpr hxs
  have hlt : (engineNext st).1 % xs.length < xs.length := Nat.mod_lt _ hlen
  simp only [sampleFrom]
  rw [List.getD_eq_getElem xs 0 hlt]
  exact List.getElem_mem hlt

/-- Claim C3 amended: CalculateClusters returns a pair of a cluster count and one representative cluster size; for a hit with nonzero energy deposit both components are samples drawn from the empirical distributions of the selected bucket. -/
theorem C3_amended_pair_sample (flData : AlgData) (hit : SimTrackerHit) (st : EngineState)
    (he : hit.eDep ≠ 0)
    (hc : flData.countDist (selectBucket flData hit.pathLength) ≠ [])
    (hs : flData.sizeDist (selectBucket flData hit.pathLength) ≠ []) :
    (CalculateClusters flData hit st).1.1
        ∈ flData.countDist (selectBucket flData hit.pathLength) ∧
    (CalculateClusters flData hit st).1.2
        ∈ flData.sizeDist (selectBucket flData hit.pathLength) := by
  simp only [CalculateClusters, he, if_false, sampleClustersFromBucket]
  exact ⟨sampleFrom_mem _ _ hc, sampleFrom_mem _ _ hs⟩

/-- Witness for the amended claim C3 at a concrete hit and calibration. -/
theorem C3_amended_pair_sample_witness :
    (CalculateClusters algDataW hitW 0).1.1
        ∈ algDataW.countDist (selectBucket algDataW hitW.pathLength) ∧
    (CalculateClusters algDataW hitW 0).1.2
        ∈ algDataW.sizeDist (selectBucket algDataW hitW.pathLength) :=
  C3_amended_pair_sample algDataW hitW 0 (by norm_num [hitW]) (by simp [algDataW])
    (by simp [algDataW])

/-- Auxiliary: the digitization loop produces exactly one digitized hit per input hit. -/
theorem digitizeLoop_fst_length (ctx : DigiContext) (hits : List SimTrackerHit) (idx : Nat)
    (st : EngineState) : (digitizeLoop ctx hits idx st).1.length = hits.length := by
  induction hits generalizing idx st with
  | nil => rfl
  | cons h rest ih => simp [digitizeLoop, ih]

/-- Auxiliary: the digitized hits keep the cell identifiers of the input hits, in order. -/
theorem digitizeLoop_cellIDs (ctx : DigiContext) (hits : List SimTrackerHit) (idx : Nat)
    (st : EngineState) :
    (digitizeLoop ctx hits idx st).1.map DigitizedHit.cellID
      = hits.map SimTrackerHit.cellID := by
  induction hits generalizing idx st with
  | nil => rfl
  | cons h rest ih => simp [digitizeLoop, ih, processHit]

/-- Auxiliary: the digitization loop starting at index idx produces the association links with indices idx, idx plus one, and so on, one per input hit. -/
theorem digitizeLoop_links (ctx : DigiContext) (hits : List SimTrackerHit) (idx : Nat)
    (st : EngineState) :
    (digitizeLoop ctx hits idx st).2
      = (List.range hits.length).map (fun i => AssociationLink.mk (idx + i) (idx + i)) := by
  induction hits generalizing idx st with
  | nil => rfl
  | cons h rest ih =>
    simp only [digitizeLoop, ih, List.length_cons, List.range_succ_eq_map, List.map_cons,
      List.map_map, Nat.add_zero, List.cons.injEq, true_and]
    refine List.map_congr_left fun i _ => ?_
    have hadd : idx + 1 + i = idx + (i + 1) := by omega
    simp [Function.comp, hadd]

/-- Claim C4: for any input collection, including the empty and singleton ones, the output has the same cardinality and order as the input (the cell identifier sequence is preserved), and exactly one association link per digitized hit links the nth output to the nth input. -/
theorem C4_cardinality_links (ctx : DigiContext) (hits : List SimTrackerHit)
    (headers : List EventHeader) (st0 : EngineState) :
    (dchOperator ctx hits headers st0).1.length = hits.length ∧
    (dchOperator ctx hits headers st0).1.map DigitizedHit.cellID
        = hits.map SimTrackerHit.cellID ∧
    (dchOperator ctx hits headers st0).2
        = (List.range hits.length).map (fun i => AssociationLink.mk i i) := by
  refine ⟨digitizeLoop_fst_length ctx hits 0 _, digitizeLoop_cellIDs ctx hits 0 _, ?_⟩
  have hlinks := digitizeLoop_links ctx hits 0 (PrepareRandomEngine headers)
  simpa [dchOperator] using hlinks

/-- Claim C6: a path length outside the calibration range does not fail: below the range the bucket clamps to 0, above the range it clamps to the last bucket, and sampling proceeds from the clamped bucket. -/
theorem C6_clamping (flData : AlgData) (hit : SimTrackerHit) (st : EngineState)
    (hw : 0 < flData.bucketWidth) (hn : 1 ≤ flData.numBuckets) (he : hit.eDep ≠ 0) :
    (hit.pathLength < flData.minPath →
      selectBucket flData hit.pathLength = 0 ∧
      CalculateClusters flData hit st = sampleClustersFromBucket flData 0 st) ∧
    (flData.minPath + flData.numBuckets * flData.bucketWidth ≤ hit.pathLength →
      selectBucket flData hit.pathLength = flData.numBuckets - 1 ∧
      CalculateClusters flData hit st
        = sampleClustersFromBucket flData (flData.numBuckets - 1) st) := by
  constructor
  · intro hlow
    have hq : (hit.pathLength - flData.minPath) / flData.bucketWidth < 0 :=
      div_neg_of_neg_of_pos (by linarith) hw
    have hfl : Int.floor ((hit.pathLength - flData.minPath) / flData.bucketWidth) < 0 := by
      rw [Int.floor_lt]
      exact_mod_cast hq
    have hsel : selectBucket flData hit.pathLength = 0 := by
      simp [selectBucket, Int.toNat_of_nonpos hfl.le]
    exact ⟨hsel, by simp [CalculateClusters, he, hsel]⟩
  · intro hhigh
    have hq : (flData.numBuckets : ℚ) ≤ (hit.pathLength - flData.minPath) / flData.bucketWidth :=
      (le_div_iff₀ hw).mpr (by linarith)
    have hfl : (flData.numBuckets : ℤ)
        ≤ Int.floor ((hit.pathLength - flData.minPath) / flData.bucketWidth) := by
      rw [Int.le_floor]
      exact_mod_cast hq
    have htn : flData.numBuckets
        ≤ Int.toNat (Int.floor ((hit.pathLength - flData.minPath) / flData.bucketWidth)) := by
      omega
    have hsel : selectBucket flData hit.pathLength = flData.numBuckets - 1 := by
      have : flData.numBuckets - 1
          ≤ Int.toNat (Int.floor ((hit.pathLength - flData.minPath) / flData.bucketWidth)) := by
        omega
      simp [selectBucket, min_eq_right this]
    exact ⟨hsel, by simp [CalculateClusters, he, hsel]⟩

/-- Witness for claim C6: a concrete hit whose path length lies below the calibration range clamps to bucket 0 and samples from it. -/
theorem C6_clamping_witness :
    selectBucket algDataW hitBelowW.pathLength = 0 ∧
    CalculateClusters algDataW hitBelowW 0 = sampleClustersFromBucket algDataW 0 0 :=
  (C6_clamping algDataW hitBelowW 0 (by norm_num [algDataW]) (by norm_num [algDataW])
      (by norm_num [hitBelowW])).1 (by norm_num [hitBelowW, algDataW])

end DCHdigi
